import Mathlib

/-!
# Verification of the deepl-api client library and its `deepl` CLI

A shallow embedding of the deepl-api Rust crate (library `src/lib.rs` and the
command line front end `src/bin/deepl/{main,parse_arguments}.rs`).  The HTTP
transport (reqwest) is modelled as an explicit function from the fully built
request to a transport outcome; JSON bodies are modelled as an already parsed
JSON value tree (`Json`), with `Option Json` standing for a body that may fail
to parse at all.  serde-derived decoders of the response shapes are embedded
as explicit partial functions on `Json`.  The `unreachable!` panic in the
request primitive is modelled by an outer `Option` layer: `none` is a panic.
-/

/-- JSON value tree, as produced by parsing a response body.  Numbers are
restricted to the unsigned integers, which covers every numeric field of the
shapes this client decodes. -/
inductive Json where
  | null : Json
  | bool (b : Bool) : Json
  | num (n : Nat) : Json
  | str (s : String) : Json
  | arr (elems : List Json) : Json
  | obj (fields : List (String × Json)) : Json

/-- Information about API usage & limits for this account. -/
structure UsageInformation where
  character_limit : Nat
  character_count : Nat
deriving DecidableEq, Repr

/-- Information about a single language. -/
structure LanguageInformation where
  language : String
  name : String
deriving DecidableEq, Repr

/-- Information about available languages. -/
abbrev LanguageList := List LanguageInformation

/-- Translation option that controls the splitting of sentences before the
translation. -/
inductive SplitSentences where
  | None : SplitSentences
  | Punctuation : SplitSentences
  | PunctuationAndNewlines : SplitSentences
deriving DecidableEq, Repr

/-- Translation option that controls the desired translation formality. -/
inductive Formality where
  | Default : Formality
  | More : Formality
  | Less : Formality
deriving DecidableEq, Repr

/-- Custom flags for the translation request. -/
structure TranslationOptions where
  split_sentences : Option SplitSentences
  preserve_formatting : Option Bool
  formality : Option Formality
  glossary_id : Option String
deriving DecidableEq, Repr

/-- Format of glossary entries when creating a glossary. -/
inductive GlossaryEntriesFormat where
  | Tsv : GlossaryEntriesFormat
  | Csv : GlossaryEntriesFormat
deriving DecidableEq, Repr

/-- Representation of a glossary.  The chrono timestamp is kept as its raw
string; validating the datetime grammar is library behaviour outside this
crate. -/
structure Glossary where
  glossary_id : String
  name : String
  ready : Bool
  source_lang : String
  target_lang : String
  creation_time : String
  entry_count : Nat
deriving DecidableEq, Repr

/-- Representation of a glossary listing response. -/
structure GlossaryListing where
  glossaries : List Glossary
deriving DecidableEq, Repr

/-- Holds a list of strings to be translated. -/
structure TranslatableTextList where
  source_language : Option String
  target_language : String
  texts : List String
deriving DecidableEq, Repr

/-- Holds one unit of translated text. -/
structure TranslatedText where
  detected_source_language : String
  text : String
deriving DecidableEq, Repr

/-- Only needed for JSON deserialization. -/
structure TranslatedTextList where
  translations : List TranslatedText
deriving DecidableEq, Repr

/-- Only needed for JSON deserialization. -/
structure ServerErrorMessage where
  message : String
  detail : Option String
deriving DecidableEq, Repr

/-- The error kinds of the crate's `error_chain!` declaration.  Transport
failures carry the underlying transport error rendered as a string. -/
inductive ErrorKind where
  | AuthorizationError : ErrorKind
  | ServerError (message : String) : ErrorKind
  | DeserializationError : ErrorKind
  | NotFoundError : ErrorKind
  | Transport (e : String) : ErrorKind
deriving DecidableEq, Repr

/-- HTTP methods used by the client (reqwest `Method`). -/
inductive Method where
  | GET : Method
  | POST : Method
  | PUT : Method
  | PATCH : Method
  | DELETE : Method
deriving DecidableEq, Repr

/-- A fully built outgoing HTTP request: method, resolved URL, headers, query
parameters and form-encoded body parameters. -/
structure HttpRequest where
  method : Method
  url : String
  headers : List (String × String)
  query : List (String × String)
  form : List (String × String)
deriving DecidableEq, Repr

/-- A raw HTTP response: numeric status code and the body, already run
through the JSON parser (`none` when the body is not valid JSON). -/
structure RawResponse where
  status : Nat
  body : Option Json

/-- The transport layer: maps the built request to either a transport error
(rendered as a string) or a raw response. -/
abbrev Net := HttpRequest → Except String RawResponse

/-- The main API entry point representing a DeepL developer account with an
associated API key. -/
structure DeepL where
  api_key : String
deriving DecidableEq, Repr

/-- `DeepL::new`. -/
def DeepL.new (api_key : String) : DeepL := { api_key }

/-- Models Rust `str::ends_with` on well-formed UTF-8: suffix test on the
character sequence. -/
def ends_with (s suffix : String) : Bool :=
  suffix.data.isSuffixOf s.data

/-- Field lookup in a JSON object (first occurrence wins). -/
def jsonField (fields : List (String × Json)) (key : String) : Option Json :=
  fields.lookup key

/-- Extract a JSON string. -/
def Json.asStr : Json → Option String
  | .str s => some s
  | _ => none

/-- Extract a JSON unsigned integer. -/
def Json.asNat : Json → Option Nat
  | .num n => some n
  | _ => none

/-- Extract a JSON boolean. -/
def Json.asBool : Json → Option Bool
  | .bool b => some b
  | _ => none

/-- Decode a JSON array element-wise. -/
def decodeArray {α : Type} (dec : Json → Option α) : Json → Option (List α)
  | .arr elems => elems.mapM dec
  | _ => none

/-- serde decoder for `UsageInformation`. -/
def decodeUsageInformation (j : Json) : Option UsageInformation :=
  match j with
  | .obj fields => do
    let character_limit ← jsonField fields "character_limit" >>= Json.asNat
    let character_count ← jsonField fields "character_count" >>= Json.asNat
    pure { character_limit, character_count }
  | _ => none

/-- serde decoder for `LanguageInformation`. -/
def decodeLanguageInformation (j : Json) : Option LanguageInformation :=
  match j with
  | .obj fields => do
    let language ← jsonField fields "language" >>= Json.asStr
    let name ← jsonField fields "name" >>= Json.asStr
    pure { language, name }
  | _ => none

/-- serde decoder for `LanguageList`. -/
def decodeLanguageList (j : Json) : Option LanguageList :=
  decodeArray decodeLanguageInformation j

/-- serde decoder for `TranslatedText`. -/
def decodeTranslatedText (j : Json) : Option TranslatedText :=
  match j with
  | .obj fields => do
    let detected_source_language ←
      jsonField fields "detected_source_language" >>= Json.asStr
    let text ← jsonField fields "text" >>= Json.asStr
    pure { detected_source_language, text }
  | _ => none

/-- serde decoder for `TranslatedTextList`. -/
def decodeTranslatedTextList (j : Json) : Option TranslatedTextList :=
  match j with
  | .obj fields => do
    let translations ←
      jsonField fields "translations" >>= decodeArray decodeTranslatedText
    pure { translations }
  | _ => none

/-- serde decoder for `Glossary`. -/
def decodeGlossary (j : Json) : Option Glossary :=
  match j with
  | .obj fields => do
    let glossary_id ← jsonField fields "glossary_id" >>= Json.asStr
    let name ← jsonField fields "name" >>= Json.asStr
    let ready ← jsonField fields "ready" >>= Json.asBool
    let source_lang ← jsonField fields "source_lang" >>= Json.asStr
    let target_lang ← jsonField fields "target_lang" >>= Json.asStr
    let creation_time ← jsonField fields "creation_time" >>= Json.asStr
    let entry_count ← jsonField fields "entry_count" >>= Json.asNat
    pure { glossary_id, name, ready, source_lang, target_lang,
           creation_time, entry_count }
  | _ => none

/-- serde decoder for `GlossaryListing`. -/
def decodeGlossaryListing (j : Json) : Option GlossaryListing :=
  match j with
  | .obj fields => do
    let glossaries ← jsonField fields "glossaries" >>= decodeArray decodeGlossary
    pure { glossaries }
  | _ => none

/-- serde decoder for `ServerErrorMessage`: `detail` is an `Option<String>`,
so a missing or `null` field decodes to `none`. -/
def decodeServerErrorMessage (j : Json) : Option ServerErrorMessage :=
  match j with
  | .obj fields =>
    match jsonField fields "message" with
    | some (.str message) =>
      match jsonField fields "detail" with
      | Option.none => some { message, detail := none }
      | some .null => some { message, detail := none }
      | some (.str d) => some { message, detail := some d }
      | some _ => none
    | _ => none
  | _ => none

/-- Models `reqwest::StatusCode::to_string` for the status text of a
response, collapsed to the numeric code. -/
def statusToString (status : Nat) : String :=
  toString status

/-- The message of the generic server-error branch of `DeepL::http_request`:
the decoded JSON error body rendered as `message: detail` when the body
parses (missing detail defaulting to the empty string), else the raw status
text. -/
def serverErrorText (r : RawResponse) : String :=
  match r.body >>= decodeServerErrorMessage with
  | some server_error => server_error.message ++ ": " ++ server_error.detail.getD ""
  | none => statusToString r.status

/-- The response classification of `DeepL::http_request` (lib.rs lines
224-248): success passes the raw response through; 401/403 become
authorization errors; 404 becomes not-found; any other status becomes a
server error with `serverErrorText`; transport failures are propagated. -/
def classify (response : Except String RawResponse) : Except ErrorKind RawResponse :=
  match response with
  | .ok r =>
    if 200 ≤ r.status ∧ r.status < 300 then .ok r
    else if r.status = 401 then .error .AuthorizationError
    else if r.status = 403 then .error .AuthorizationError
    else if r.status = 404 then .error .NotFoundError
    else .error (.ServerError (serverErrorText r))
  | .error e => .error (.Transport e)

/-- Request construction of `DeepL::http_request` (lib.rs lines 203-222):
base-URL selection by the `:fx` key suffix, the `DeepL-Auth-Key`
authorization header, and parameter encoding by method — query parameters
for GET, form parameters for PATCH/POST/PUT, and `none` for the
`unreachable!` panic branch (parameters with any other method). -/
def buildRequest (api_key : String) (method : Method) (url : String)
    (params : Option (List (String × String))) : Option HttpRequest :=
  let url' := if ends_with api_key ":fx" then
      "https://api-free.deepl.com/v2" ++ url
    else
      "https://api.deepl.com/v2" ++ url
  let request : HttpRequest :=
    { method, url := url',
      headers := [("Authorization", "DeepL-Auth-Key " ++ api_key)],
      query := [], form := [] }
  match params with
  | some ps =>
    match method with
    | .GET => some { request with query := ps }
    | .PATCH | .POST | .PUT => some { request with form := ps }
    | _ => none
  | none => some request

/-- Private method that performs the HTTP calls (`DeepL::http_request`).
`none` models the `unreachable!` panic. -/
def DeepL.http_request (self : DeepL) (method : Method) (url : String)
    (params : Option (List (String × String))) (net : Net) :
    Option (Except ErrorKind RawResponse) :=
  match buildRequest self.api_key method url params with
  | none => none
  | some request => some (classify (net request))

/-- The `?` operator on a `Result` inside a possibly panicking computation:
propagate panic and error, continue on success. -/
def chain {α β : Type} (x : Option (Except ErrorKind α))
    (f : α → Option (Except ErrorKind β)) : Option (Except ErrorKind β) :=
  match x with
  | none => none
  | some (.error e) => some (.error e)
  | some (.ok a) => f a

/-- Models `res.json::<T>()` followed by the match that turns a decoding
failure into `ErrorKind::DeserializationError`. -/
def tryJson {α : Type} (dec : Json → Option α) (res : RawResponse) :
    Except ErrorKind α :=
  match res.body >>= dec with
  | some content => .ok content
  | none => .error .DeserializationError

/-- `DeepL::usage_information`. -/
def DeepL.usage_information (self : DeepL) (net : Net) :
    Option (Except ErrorKind UsageInformation) :=
  chain (self.http_request .POST "/usage" none net) fun res =>
    some (tryJson decodeUsageInformation res)

/-- Private method to make the API calls for the language lists
(`DeepL::languages`). -/
def DeepL.languages (self : DeepL) (language_type : String) (net : Net) :
    Option (Except ErrorKind LanguageList) :=
  chain (self.http_request .POST "/languages" (some [("type", language_type)]) net)
    fun res => some (tryJson decodeLanguageList res)

/-- `DeepL::source_languages`. -/
def DeepL.source_languages (self : DeepL) (net : Net) :
    Option (Except ErrorKind LanguageList) :=
  self.languages "source" net

/-- `DeepL::target_languages`. -/
def DeepL.target_languages (self : DeepL) (net : Net) :
    Option (Except ErrorKind LanguageList) :=
  self.languages "target" net

/-- The query construction of `DeepL::translate` (lib.rs lines 300-342),
transliterated push by push: the required target language, the optional
source language, one `text` entry per input, then the optional
sentence-splitting, preserve-formatting, formality and glossary entries. -/
def translateQuery (options : Option TranslationOptions)
    (text_list : TranslatableTextList) : List (String × String) :=
  let query := [("target_lang", text_list.target_language)]
  let query := match text_list.source_language with
    | some source_language_content => query ++ [("source_lang", source_language_content)]
    | none => query
  let query := text_list.texts.foldl (fun q text => q ++ [("text", text)]) query
  match options with
  | none => query
  | some opt =>
    let query := match opt.split_sentences with
      | none => query
      | some split_sentences =>
        query ++ [("split_sentences",
          match split_sentences with
          | SplitSentences.None => "0"
          | SplitSentences.PunctuationAndNewlines => "1"
          | SplitSentences.Punctuation => "nonewlines")]
    let query := match opt.preserve_formatting with
      | none => query
      | some preserve_formatting =>
        query ++ [("preserve_formatting",
          match preserve_formatting with
          | false => "0"
          | true => "1")]
    let query := match opt.formality with
      | none => query
      | some formality =>
        query ++ [("formality",
          match formality with
          | Formality.Default => "default"
          | Formality.More => "more"
          | Formality.Less => "less")]
    match opt.glossary_id with
    | none => query
    | some glossary_id => query ++ [("glossary_id", glossary_id)]

/-- `DeepL::translate`. -/
def DeepL.translate (self : DeepL) (options : Option TranslationOptions)
    (text_list : TranslatableTextList) (net : Net) :
    Option (Except ErrorKind (List TranslatedText)) :=
  chain (self.http_request .POST "/translate" (some (translateQuery options text_list)) net)
    fun res =>
      some (Except.map TranslatedTextList.translations
        (tryJson decodeTranslatedTextList res))

/-- `DeepL::create_glossary`. -/
def DeepL.create_glossary (self : DeepL) (name : String) (source_lang : String)
    (target_lang : String) (entries : String)
    (entries_format : GlossaryEntriesFormat) (net : Net) :
    Option (Except ErrorKind Glossary) :=
  chain (self.http_request .POST "/glossaries" (some [
      ("name", name),
      ("source_lang", source_lang),
      ("target_lang", target_lang),
      ("entries", entries),
      ("entries_format",
        match entries_format with
        | GlossaryEntriesFormat.Tsv => "tsv"
        | GlossaryEntriesFormat.Csv => "csv")]) net)
    fun res => some (tryJson decodeGlossary res)

/-- `DeepL::list_glossaries`. -/
def DeepL.list_glossaries (self : DeepL) (net : Net) :
    Option (Except ErrorKind GlossaryListing) :=
  chain (self.http_request .GET "/glossaries" none net) fun res =>
    some (tryJson decodeGlossaryListing res)

/-- `DeepL::delete_glossary`: returns the raw response, performing no JSON
decoding. -/
def DeepL.delete_glossary (self : DeepL) (glossary_id : String) (net : Net) :
    Option (Except ErrorKind RawResponse) :=
  self.http_request .DELETE ("/glossaries/" ++ glossary_id) none net

/-- `DeepL::get_glossary`. -/
def DeepL.get_glossary (self : DeepL) (glossary_id : String) (net : Net) :
    Option (Except ErrorKind Glossary) :=
  chain (self.http_request .GET ("/glossaries/" ++ glossary_id) none net)
    fun res => some (tryJson decodeGlossary res)

/-- The serialization of the translate request parameters stated
declaratively, following the specification's words: target language always
first, source language only if supplied, one repeated `text` entry per input
block in original order, then the option entries with their literal wire
tokens, each omitted when absent. -/
def translateQuerySpec (options : Option TranslationOptions)
    (text_list : TranslatableTextList) : List (String × String) :=
  [("target_lang", text_list.target_language)]
  ++ (match text_list.source_language with
      | some s => [("source_lang", s)]
      | none => [])
  ++ text_list.texts.map (fun text => ("text", text))
  ++ (match options with
      | none => []
      | some opt =>
        (match opt.split_sentences with
          | none => []
          | some SplitSentences.None => [("split_sentences", "0")]
          | some SplitSentences.PunctuationAndNewlines => [("split_sentences", "1")]
          | some SplitSentences.Punctuation => [("split_sentences", "nonewlines")])
        ++ (match opt.preserve_formatting with
          | none => []
          | some false => [("preserve_formatting", "0")]
          | some true => [("preserve_formatting", "1")])
        ++ (match opt.formality with
          | none => []
          | some Formality.Default => [("formality", "default")]
          | some Formality.More => [("formality", "more")]
          | some Formality.Less => [("formality", "less")])
        ++ (match opt.glossary_id with
          | none => []
          | some glossary_id => [("glossary_id", glossary_id)]))

lemma foldl_push_eq_append_map {α β : Type} (f : α → β) (l : List α) (init : List β) :
    l.foldl (fun q t => q ++ [f t]) init = init ++ l.map f := by
  induction l generalizing init with
  | nil => simp
  | cons x xs ih => simp [ih, List.append_assoc]

lemma translateQuery_eq_spec (options : Option TranslationOptions)
    (text_list : TranslatableTextList) :
    translateQuery options text_list = translateQuerySpec options text_list := by
  unfold translateQuery translateQuerySpec
  obtain ⟨source_language, target_language, texts⟩ := text_list
  rcases options with _ | ⟨ss, pf, fm, gi⟩
  · rcases source_language with _ | s <;>
      simp [foldl_push_eq_append_map (fun text => (("text" : String), text)) texts]
  · rcases source_language with _ | s <;>
      rcases ss with _ | (_ | _ | _) <;>
      rcases pf with _ | (_ | _) <;>
      rcases fm with _ | (_ | _ | _) <;>
      rcases gi with _ | gi <;>
      simp [foldl_push_eq_append_map (fun text => (("text" : String), text)) texts,
        List.append_assoc]

/-- C1: `translate` serializes the request parameters exactly as specified —
`target_lang` always present, `source_lang` only when supplied, one repeated
`text` entry per input block in original order, sentence splitting mapped to
the literal tokens "0"/"1"/"nonewlines", preserve-formatting to "0"/"1",
formality to "default"/"more"/"less", the glossary identifier passed through
verbatim, and every absent optional field omitted. -/
theorem translate_serialization_exact (options : Option TranslationOptions)
    (text_list : TranslatableTextList) :
    translateQuery options text_list = translateQuerySpec options text_list :=
  translateQuery_eq_spec options text_list

/-! ## The `deepl` command line front end -/

/-- The parsed `translate` subcommand arguments
(`parse_arguments.rs`, struct `Translate`). -/
structure Translate where
  source_language : Option String
  target_language : String
  input_file : Option String
  output_file : Option String
  preserve_formatting : Bool
  formality_more : Bool
  formality_less : Bool
deriving DecidableEq, Repr

/-- The CLI subcommands (`parse_arguments.rs`, enum of subcommands). -/
inductive SubCmd where
  | Translate (t : Translate) : SubCmd
  | UsageInformation : SubCmd
  | Languages : SubCmd
deriving DecidableEq, Repr

/-- Where the translated output goes: a file write, or standard output
(`println!` appends the trailing newline to the printed content). -/
inductive CliOutput where
  | toFile (filepath : String) (content : String) : CliOutput
  | toStdout (content : String) : CliOutput
deriving DecidableEq, Repr

/-- The option-building statements of the CLI `translate` function
(main.rs lines 117-130): start from all-unset options, then set
preserve-formatting to `Some(true)` if flagged, then apply the
less-formality assignment, then the more-formality assignment.  The CLI
never touches the glossary identifier. -/
def cliTranslationOptions (t : Translate) : TranslationOptions :=
  let t_opts : TranslationOptions :=
    { split_sentences := none, preserve_formatting := none,
      formality := none, glossary_id := none }
  let t_opts := if t.preserve_formatting then
      { t_opts with preserve_formatting := some true }
    else t_opts
  let t_opts := if t.formality_less then
      { t_opts with formality := some Formality.Less }
    else t_opts
  let t_opts := if t.formality_more then
      { t_opts with formality := some Formality.More }
    else t_opts
  t_opts

/-- The CLI `translate` function (main.rs lines 116-158).  `inputText` is
the text obtained from the input file or from standard input; the returned
fragments are concatenated by the output loop and written to the output
file when one is given, else printed to standard output. -/
def Cli.translate (deepl : DeepL) (t : Translate) (inputText : String)
    (net : Net) : Option (Except ErrorKind CliOutput) :=
  let t_opts := cliTranslationOptions t
  let texts : TranslatableTextList :=
    { source_language := t.source_language,
      target_language := t.target_language,
      texts := [inputText] }
  chain (deepl.translate (some t_opts) texts net) fun translations =>
    let output := translations.foldl (fun acc tr => acc ++ tr.text) ""
    some (.ok (match t.output_file with
      | some filepath => CliOutput.toFile filepath output
      | none => CliOutput.toStdout (output ++ "\n")))

/-- The `Display` rendering of the crate's error kinds, from the
`error_chain!` declaration. -/
def errorDisplay (e : ErrorKind) : String :=
  match e with
  | .AuthorizationError => "Authorization failed, is your API key correct?"
  | .ServerError message =>
    "An error occurred while communicating with the DeepL server: '"
      ++ message ++ "'."
  | .DeserializationError =>
    "An error occurred while deserializing the response data."
  | .NotFoundError => "The requested resource was not found."
  | .Transport e => e

/-- The fixed message printed when the credential environment variable is
unset or empty. -/
def missingKeyMessage : String :=
  "Error: no DEEPL_API_KEY found. Please provide your API key in this environment variable."

/-- Outcome of one CLI invocation: an error line on standard error with an
exit code, a panic (never reached from the public API), or the happy-path
output of the chosen subcommand. -/
inductive MainOutcome where
  | exitError (stderrLine : String) (code : Nat) : MainOutcome
  | panicked : MainOutcome
  | translated (out : CliOutput) : MainOutcome
  | usageReport (usage : UsageInformation) : MainOutcome
  | languagesReport (sources : LanguageList) (targets : LanguageList) : MainOutcome

/-- Wraps a subcommand result the way `main` does: an `Err` is printed as
`Error: <message>` on standard error with exit code 1. -/
def runOutcome {α : Type} (x : Option (Except ErrorKind α))
    (happy : α → MainOutcome) : MainOutcome :=
  match x with
  | none => MainOutcome.panicked
  | some (.error e) => MainOutcome.exitError ("Error: " ++ errorDisplay e) 1
  | some (.ok a) => happy a

/-- The CLI `main` function (main.rs lines 91-114): read the credential from
the environment, failing with the fixed message and exit code 1 when it is
unset or empty, before constructing the client or touching the network;
then dispatch on the subcommand. -/
def Cli.main (env : Option String) (cmd : SubCmd) (inputText : String)
    (net : Net) : MainOutcome :=
  match env with
  | some val =>
    if 0 < val.length then
      let deepl := DeepL.new val
      match cmd with
      | .Translate t =>
        runOutcome (Cli.translate deepl t inputText net) MainOutcome.translated
      | .UsageInformation =>
        runOutcome (deepl.usage_information net) MainOutcome.usageReport
      | .Languages =>
        runOutcome (deepl.source_languages net) fun source_langs =>
          runOutcome (deepl.target_languages net) fun target_langs =>
            MainOutcome.languagesReport source_langs target_langs
    else
      MainOutcome.exitError missingKeyMessage 1
  | none => MainOutcome.exitError missingKeyMessage 1

/-! ## Claim theorems -/

/-- C2: the shared request primitive classifies every received HTTP
response by status: 401 or 403 yield an authorization error, 404 yields a
not-found error, any other non-success status yields a server error whose
message is the decoded JSON error body rendered as `message: detail` when
the body parses (empty string for a missing detail field) and the raw
status text otherwise, and a success status returns the raw response
unchanged. -/
theorem http_response_classification (r : RawResponse) :
    (200 ≤ r.status ∧ r.status < 300 → classify (.ok r) = .ok r) ∧
    (r.status = 401 ∨ r.status = 403 →
      classify (.ok r) = .error ErrorKind.AuthorizationError) ∧
    (r.status = 404 → classify (.ok r) = .error ErrorKind.NotFoundError) ∧
    (¬(200 ≤ r.status ∧ r.status < 300) → r.status ≠ 401 → r.status ≠ 403 →
      r.status ≠ 404 →
      classify (.ok r) = .error (ErrorKind.ServerError (serverErrorText r))) ∧
    (∀ m, r.body >>= decodeServerErrorMessage = some m →
      serverErrorText r = m.message ++ ": " ++ m.detail.getD "") ∧
    (r.body >>= decodeServerErrorMessage = none →
      serverErrorText r = statusToString r.status) := by
  refine ⟨?_, ?_, ?_, ?_, ?_, ?_⟩
  · intro h
    simp [classify, h]
  · rintro (h | h) <;> simp [classify, h]
  · intro h
    simp [classify, h]
  · intro h1 h2 h3 h4
    simp [classify, h1, h2, h3, h4]
  · intro m hm
    simp [serverErrorText, hm]
  · intro hm
    simp [serverErrorText, hm]

/-- Witness for C2: concrete responses exercising the success, 401, 404 and
generic-server-error branches of the classification. -/
theorem http_response_classification_witness :
    classify (.ok ⟨200, none⟩) = .ok ⟨200, none⟩ ∧
    classify (.ok ⟨401, none⟩) = .error ErrorKind.AuthorizationError ∧
    classify (.ok ⟨404, none⟩) = .error ErrorKind.NotFoundError ∧
    classify (.ok ⟨500, none⟩) =
      .error (ErrorKind.ServerError (serverErrorText ⟨500, none⟩)) :=
  ⟨(http_response_classification ⟨200, none⟩).1 (by decide),
   (http_response_classification ⟨401, none⟩).2.1 (Or.inl rfl),
   (http_response_classification ⟨404, none⟩).2.2.1 rfl,
   (http_response_classification ⟨500, none⟩).2.2.2.1
     (by decide) (by decide) (by decide) (by decide)⟩

/-- C3: every request built by the client resolves its relative endpoint
path against the free-tier base host exactly when the credential ends with
the `:fx` suffix and against the standard base host otherwise, with the
relative path appended unchanged. -/
theorem request_url_base_selection (api_key : String) (method : Method)
    (url : String) (params : Option (List (String × String)))
    (req : HttpRequest) (h : buildRequest api_key method url params = some req) :
    req.url = (if ends_with api_key ":fx" then "https://api-free.deepl.com/v2"
      else "https://api.deepl.com/v2") ++ url := by
  rcases params with _ | ps <;> cases method <;>
    simp [buildRequest] at h <;> subst h <;>
    by_cases hc : ends_with api_key ":fx" <;> simp [hc]

/-- Witness for C3: a free-tier key builds a request against the free host,
a standard key against the standard host. -/
theorem request_url_base_selection_witness :
    (∃ req, buildRequest "abc:fx" Method.POST "/usage" none = some req ∧
      req.url = "https://api-free.deepl.com/v2/usage") ∧
    (∃ req, buildRequest "abc" Method.POST "/usage" none = some req ∧
      req.url = "https://api.deepl.com/v2/usage") := by
  constructor
  · refine ⟨_, rfl, ?_⟩
    have h := request_url_base_selection "abc:fx" Method.POST "/usage" none _ rfl
    rw [h]
    decide
  · refine ⟨_, rfl, ?_⟩
    have h := request_url_base_selection "abc" Method.POST "/usage" none _ rfl
    rw [h]
    decide

/-- C7: every request built by the client carries the credential as the
single `Authorization` header with value `DeepL-Auth-Key <credential>`, and
the query and form parameters are exactly the parameters handed to the
request primitive — the credential is never added as a request parameter. -/
theorem credential_in_header_only (api_key : String) (method : Method)
    (url : String) (params : Option (List (String × String)))
    (req : HttpRequest) (h : buildRequest api_key method url params = some req) :
    req.headers = [("Authorization", "DeepL-Auth-Key " ++ api_key)] ∧
    req.query ++ req.form = params.getD [] := by
  rcases params with _ | ps <;> cases method <;>
    simp [buildRequest] at h <;> subst h <;> simp

/-- Witness for C7: a concrete GET request with one parameter carries the
auth header and exactly that parameter. -/
theorem credential_in_header_only_witness :
    ∃ req, buildRequest "k" Method.GET "/glossaries" (some [("type", "source")]) = some req ∧
      req.headers = [("Authorization", "DeepL-Auth-Key k")] ∧
      req.query ++ req.form = [("type", "source")] := by
  refine ⟨_, rfl, ?_⟩
  have h := credential_in_header_only "k" Method.GET "/glossaries"
    (some [("type", "source")]) _ rfl
  exact h

lemma chain_some_isSome {α β : Type} (x : Except ErrorKind α)
    (f : α → Option (Except ErrorKind β)) (hf : ∀ a, (f a).isSome) :
    (chain (some x) f).isSome := by
  cases x with
  | error e => simp [chain]
  | ok a => simpa [chain] using hf a

/-- C4: for every client operation that decodes a JSON shape (fetch usage,
fetch languages, translate, create glossary, list glossaries, get
glossary), an HTTP-success response whose body does not decode to the
operation's expected shape makes the operation fail with
`DeserializationError`; `delete_glossary` expects no shape and returns the
raw successful response undecoded, so the condition is vacuous there. -/
theorem deserialization_error_on_bad_body (key : String) (r : RawResponse)
    (hs : 200 ≤ r.status ∧ r.status < 300) :
    (r.body >>= decodeUsageInformation = none →
      (DeepL.new key).usage_information (fun _ => .ok r) =
        some (.error ErrorKind.DeserializationError)) ∧
    (∀ language_type, r.body >>= decodeLanguageList = none →
      (DeepL.new key).languages language_type (fun _ => .ok r) =
        some (.error ErrorKind.DeserializationError)) ∧
    (∀ options text_list, r.body >>= decodeTranslatedTextList = none →
      (DeepL.new key).translate options text_list (fun _ => .ok r) =
        some (.error ErrorKind.DeserializationError)) ∧
    (∀ name source_lang target_lang entries entries_format,
      r.body >>= decodeGlossary = none →
      (DeepL.new key).create_glossary name source_lang target_lang entries
        entries_format (fun _ => .ok r) =
        some (.error ErrorKind.DeserializationError)) ∧
    (r.body >>= decodeGlossaryListing = none →
      (DeepL.new key).list_glossaries (fun _ => .ok r) =
        some (.error ErrorKind.DeserializationError)) ∧
    (∀ glossary_id, r.body >>= decodeGlossary = none →
      (DeepL.new key).get_glossary glossary_id (fun _ => .ok r) =
        some (.error ErrorKind.DeserializationError)) ∧
    (∀ glossary_id,
      (DeepL.new key).delete_glossary glossary_id (fun _ => .ok r) =
        some (.ok r)) := by
  refine ⟨?_, ?_, ?_, ?_, ?_, ?_, ?_⟩
  · intro hd
    simp [DeepL.usage_information, DeepL.http_request, buildRequest, DeepL.new,
      chain, classify, hs, tryJson, hd]
  · intro language_type hd
    simp [DeepL.languages, DeepL.http_request, buildRequest, DeepL.new,
      chain, classify, hs, tryJson, hd]
  · intro options text_list hd
    simp [DeepL.translate, DeepL.http_request, buildRequest, DeepL.new,
      chain, classify, hs, tryJson, hd, Except.map]
  · intro name source_lang target_lang entries entries_format hd
    simp [DeepL.create_glossary, DeepL.http_request, buildRequest, DeepL.new,
      chain, classify, hs, tryJson, hd]
  · intro hd
    simp [DeepL.list_glossaries, DeepL.http_request, buildRequest, DeepL.new,
      chain, classify, hs, tryJson, hd]
  · intro glossary_id hd
    simp [DeepL.get_glossary, DeepL.http_request, buildRequest, DeepL.new,
      chain, classify, hs, tryJson, hd]
  · intro glossary_id
    simp [DeepL.delete_glossary, DeepL.http_request, buildRequest, DeepL.new,
      classify, hs]

/-- Witness for C4: a 200 response with an unparsable body makes
`usage_information` fail with a deserialization error, while
`delete_glossary` passes the raw response through. -/
theorem deserialization_error_on_bad_body_witness :
    (DeepL.new "k").usage_information (fun _ => .ok ⟨200, none⟩) =
      some (.error ErrorKind.DeserializationError) ∧
    (DeepL.new "k").delete_glossary "g1" (fun _ => .ok ⟨200, none⟩) =
      some (.ok ⟨200, none⟩) :=
  ⟨(deserialization_error_on_bad_body "k" ⟨200, none⟩ (by decide)).1 rfl,
   (deserialization_error_on_bad_body "k" ⟨200, none⟩ (by decide)).2.2.2.2.2.2 "g1"⟩

/-- C9: the `unreachable!` panic of the request primitive (parameters with
a method other than GET/PATCH/POST/PUT) cannot be reached from any public
operation: every operation that passes parameters uses GET or POST, and
`delete_glossary`, the only DELETE, passes none — so every public call
returns a proper result. -/
theorem panic_branch_unreachable (key : String) (net : Net)
    (language_type : String) (options : Option TranslationOptions)
    (text_list : TranslatableTextList)
    (name source_lang target_lang entries : String)
    (entries_format : GlossaryEntriesFormat) (glossary_id : String) :
    ((DeepL.new key).usage_information net).isSome ∧
    ((DeepL.new key).languages language_type net).isSome ∧
    ((DeepL.new key).source_languages net).isSome ∧
    ((DeepL.new key).target_languages net).isSome ∧
    ((DeepL.new key).translate options text_list net).isSome ∧
    ((DeepL.new key).create_glossary name source_lang target_lang entries
      entries_format net).isSome ∧
    ((DeepL.new key).list_glossaries net).isSome ∧
    ((DeepL.new key).delete_glossary glossary_id net).isSome ∧
    ((DeepL.new key).get_glossary glossary_id net).isSome :=
  ⟨chain_some_isSome _ _ fun _ => rfl,
   chain_some_isSome _ _ fun _ => rfl,
   chain_some_isSome _ _ fun _ => rfl,
   chain_some_isSome _ _ fun _ => rfl,
   chain_some_isSome _ _ fun _ => rfl,
   chain_some_isSome _ _ fun _ => rfl,
   chain_some_isSome _ _ fun _ => rfl,
   rfl,
   chain_some_isSome _ _ fun _ => rfl⟩

/-- C5: the CLI translate subcommand passes the full input text to
`translate` as exactly one text block, concatenates the returned text
fragments, and writes the result to the output file when one is given,
else to standard output followed by a trailing newline. -/
theorem cli_translate_single_block (deepl : DeepL) (t : Translate)
    (inputText : String) (net : Net) :
    Cli.translate deepl t inputText net =
      Option.map (Except.map fun translations =>
        match t.output_file with
        | some filepath =>
          CliOutput.toFile filepath
            (String.join (translations.map TranslatedText.text))
        | none =>
          CliOutput.toStdout
            (String.join (translations.map TranslatedText.text) ++ "\n"))
      (deepl.translate (some (cliTranslationOptions t))
        { source_language := t.source_language,
          target_language := t.target_language,
          texts := [inputText] } net) := by
  unfold Cli.translate
  rcases htr : deepl.translate (some (cliTranslationOptions t))
      { source_language := t.source_language,
        target_language := t.target_language,
        texts := [inputText] } net with _ | (e | translations) <;>
    cases t.output_file <;>
    simp [chain, htr, Except.map, String.join, List.foldl_map]

lemma cliTranslationOptions_eq (t : Translate) :
    cliTranslationOptions t =
      { split_sentences := none,
        preserve_formatting := if t.preserve_formatting then some true else none,
        formality := if t.formality_more then some Formality.More
          else if t.formality_less then some Formality.Less else none,
        glossary_id := none } := by
  cases hp : t.preserve_formatting <;> cases hl : t.formality_less <;>
    cases hm : t.formality_more <;> simp [cliTranslationOptions, hp, hl, hm]

/-- C6: when both `--formality-more` and `--formality-less` are set, no
mutual-exclusion error is raised — the less-formality assignment is applied
first and the more-formality assignment second, so the options carry `More`
and the outgoing request carries the wire token `"more"` (and no `"less"`
entry). -/
theorem both_formality_flags_more_wins (t : Translate)
    (text_list : TranslatableTextList)
    (hm : t.formality_more = true) (_hl : t.formality_less = true) :
    (cliTranslationOptions t).formality = some Formality.More ∧
    ("formality", "more") ∈ translateQuery (some (cliTranslationOptions t)) text_list ∧
    ("formality", "less") ∉ translateQuery (some (cliTranslationOptions t)) text_list := by
  refine ⟨?_, ?_, ?_⟩
  · simp [cliTranslationOptions_eq, hm]
  · cases hp : t.preserve_formatting <;>
      cases hsrc : text_list.source_language <;>
      simp [cliTranslationOptions_eq, hm, hp, translateQuery_eq_spec,
        translateQuerySpec, hsrc]
  · cases hp : t.preserve_formatting <;>
      cases hsrc : text_list.source_language <;>
      simp [cliTranslationOptions_eq, hm, hp, translateQuery_eq_spec,
        translateQuerySpec, hsrc]

/-- Witness for C6: with both formality flags set, the built options carry
`More` and the request query carries the `"more"` token. -/
theorem both_formality_flags_more_wins_witness :
    (cliTranslationOptions
      ⟨none, "DE", none, none, false, true, true⟩).formality = some Formality.More ∧
    ("formality", "more") ∈ translateQuery
      (some (cliTranslationOptions ⟨none, "DE", none, none, false, true, true⟩))
      ⟨none, "DE", ["hi"]⟩ :=
  ⟨(both_formality_flags_more_wins ⟨none, "DE", none, none, false, true, true⟩
      ⟨none, "DE", ["hi"]⟩ rfl rfl).1,
   (both_formality_flags_more_wins ⟨none, "DE", none, none, false, true, true⟩
      ⟨none, "DE", ["hi"]⟩ rfl rfl).2.1⟩

/-- C8: with the credential environment variable unset or empty, every CLI
subcommand exits with code 1 and the fixed missing-credential message on
standard error, independently of the network (no client is constructed and
no request is sent), which makes the failure distinct from any network
error. -/
theorem missing_credential_exit (env : Option String) (cmd : SubCmd)
    (inputText : String) (net : Net)
    (h : env = none ∨ env = some "") :
    Cli.main env cmd inputText net =
      MainOutcome.exitError missingKeyMessage 1 := by
  rcases h with rfl | rfl <;> simp [Cli.main]

/-- Witness for C8: an unset credential makes the usage subcommand exit
with the fixed message and code 1. -/
theorem missing_credential_exit_witness :
    Cli.main none SubCmd.UsageInformation "" (fun _ => .ok ⟨200, none⟩) =
      MainOutcome.exitError missingKeyMessage 1 :=
  missing_credential_exit none SubCmd.UsageInformation ""
    (fun _ => .ok ⟨200, none⟩) (Or.inl rfl)

/-- C10: the CLI always leaves the sentence-splitting mode unset and sets
preserve-formatting to `Some(true)` exactly when the flag is given — never
`Some(false)` — so the outgoing request never contains a `split_sentences`
parameter and never contains a `preserve_formatting` parameter with value
`"0"`. -/
theorem cli_options_never_split_never_preserve_off (t : Translate) :
    (cliTranslationOptions t).split_sentences = none ∧
    (cliTranslationOptions t).preserve_formatting =
      (if t.preserve_formatting then some true else none) ∧
    (cliTranslationOptions t).preserve_formatting ≠ some false ∧
    (∀ text_list v, ("split_sentences", v) ∉
      translateQuery (some (cliTranslationOptions t)) text_list) ∧
    (∀ text_list, ("preserve_formatting", "0") ∉
      translateQuery (some (cliTranslationOptions t)) text_list) := by
  refine ⟨?_, ?_, ?_, ?_, ?_⟩
  · simp [cliTranslationOptions_eq]
  · simp [cliTranslationOptions_eq]
  · cases hp : t.preserve_formatting <;> simp [cliTranslationOptions_eq, hp]
  · intro text_list v
    cases hp : t.preserve_formatting <;>
      cases hm : t.formality_more <;> cases hl : t.formality_less <;>
      cases hsrc : text_list.source_language <;>
      simp [cliTranslationOptions_eq, hp, hm, hl, hsrc,
        translateQuery_eq_spec, translateQuerySpec]
  · intro text_list
    cases hp : t.preserve_formatting <;>
      cases hm : t.formality_more <;> cases hl : t.formality_less <;>
      cases hsrc : text_list.source_language <;>
      simp [cliTranslationOptions_eq, hp, hm, hl, hsrc,
        translateQuery_eq_spec, translateQuerySpec]

/-- Witness for C10: concrete flag settings produce unset sentence
splitting, preserve-formatting `Some(true)`, and a request without a
`split_sentences` entry. -/
theorem cli_options_never_split_witness :
    (cliTranslationOptions ⟨none, "DE", none, none, true, false, false⟩).split_sentences = none ∧
    (cliTranslationOptions ⟨none, "DE", none, none, true, false, false⟩).preserve_formatting = some true ∧
    ("split_sentences", "0") ∉ translateQuery
      (some (cliTranslationOptions ⟨none, "DE", none, none, true, false, false⟩))
      ⟨none, "DE", ["hi"]⟩ :=
  ⟨(cli_options_never_split_never_preserve_off
      ⟨none, "DE", none, none, true, false, false⟩).1,
   by simpa using (cli_options_never_split_never_preserve_off
      ⟨none, "DE", none, none, true, false, false⟩).2.1,
   (cli_options_never_split_never_preserve_off
      ⟨none, "DE", none, none, true, false, false⟩).2.2.2.1 ⟨none, "DE", ["hi"]⟩ "0"⟩
